import Mathlib

/-!
Verification development for the PALFA pipeline orchestration core
(Downloader.py, job.py, lib/jobtracker.py).  The Python code is shallowly
embedded: SQL tables become lists of rows, statuses become inductive types
mirroring the literal strings written by the code (SQLite LIKE comparisons
are case-insensitive, so every distinct status literal is one constructor),
and exceptional control flow becomes explicit error values.
-/

/-- Python exception kinds that the embedded code can raise. -/
inductive PyError
  | nameError
  | typeError
  | keyError
  | indexError
  | valueError
  | notImplementedError
  deriving DecidableEq, Repr

/- ------------------------------------------------------------------ -/
/- Durable job store: lib/jobtracker.py, function query (lines 12-66) -/
/- ------------------------------------------------------------------ -/

/-- Statement language for the store model.  The jobtracker passes raw SQL
strings; for the transactional contract only three behaviours matter:
an INSERT (sets lastrowid), a SELECT (fills the fetch buffer) and a
mutating non-INSERT statement (clears lastrowid, per pysqlite cursors). -/
inductive Stmt
  | insertV (v : Nat)
  | selectAll
  | deleteAll
  deriving DecidableEq, Repr

/-- Cursor/connection view after executing statements: the table rows, the
lastrowid of the most recent statement (None unless it was an INSERT, as
pysqlite resets it per execute), and the pending fetch buffer. -/
structure Conn where
  rows : List Nat
  lastid : Option Nat
  fetched : List Nat
  deriving DecidableEq, Repr

/-- Effect of one statement on the cursor, mirroring sqlite semantics:
INSERT appends a row (rowid = new row count), SELECT loads the fetch
buffer, DELETE clears the table. -/
def execStmt (c : Conn) : Stmt → Conn
  | Stmt.insertV v => { rows := c.rows ++ [v], lastid := some (c.rows.length + 1), fetched := [] }
  | Stmt.selectAll => { rows := c.rows, lastid := none, fetched := c.rows }
  | Stmt.deleteAll => { rows := [], lastid := none, fetched := [] }

/-- Execute a whole batch of statements on one cursor (jobtracker.query
runs every statement of the call on a single cursor before committing). -/
def execStmts (db : List Nat) (qs : List Stmt) : Conn :=
  qs.foldl execStmt { rows := db, lastid := none, fetched := [] }

/-- Value returned by jobtracker.query on success: the lastrowid if the
final statement was an INSERT, otherwise the fetched rows. -/
inductive QueryResult
  | rowid (n : Nat)
  | rows (rs : List Nat)
  deriving DecidableEq, Repr

/-- Result jobtracker.query computes after a successful commit. -/
def expectedResult (db : List Nat) (qs : List Stmt) : QueryResult :=
  match (execStmts db qs).lastid with
  | some id => QueryResult.rowid id
  | none => QueryResult.rows (execStmts db qs).fetched

/-- Outcome of one connection attempt of the retry loop: an
sqlite3.OperationalError raised while executing statement number k of the
batch (the open transaction is rolled back), or a clean run to commit. -/
inductive AttemptOutcome
  | failAt (k : Nat)
  | success
  deriving DecidableEq, Repr

/-- Whether an attempt outcome is the successful one. -/
def AttemptOutcome.isSucc : AttemptOutcome → Bool
  | AttemptOutcome.success => true
  | AttemptOutcome.failAt _ => false

/-- Observable state when jobtracker.query stops (or when the observed
trace of attempt outcomes runs out while it is still retrying): result
returned, committed table, warnings printed, 1-second sleeps performed. -/
structure QState where
  result : Option QueryResult
  db : List Nat
  warns : Nat
  sleeps : Nat
  deriving DecidableEq, Repr

/-- Retry loop of jobtracker.query (lines 33-66).  On a failed attempt the
rollback discards the partially executed prefix, a warning is printed when
the consecutive-failure counter exceeds 59 (resetting it), the loop sleeps
one second and the counter is incremented; on a successful attempt the
whole batch is committed and the result computed.  The outcome list is the
observed window of attempts; an empty remainder means it is still
retrying. -/
def queryLoop (qs : List Stmt) : List AttemptOutcome → List Nat → Nat → QState
  | [], db, _ => { result := none, db := db, warns := 0, sleeps := 0 }
  | AttemptOutcome.success :: _, db, _ =>
      let c := execStmts db qs
      { result := some (expectedResult db qs), db := c.rows, warns := 0, sleeps := 0 }
  | AttemptOutcome.failAt _ :: rest, db, count =>
      let w := if count > 59 then 1 else 0
      let r := queryLoop qs rest db ((if count > 59 then 0 else count) + 1)
      { result := r.result, db := r.db, warns := w + r.warns, sleeps := r.sleeps + 1 }

/-- Entry point of jobtracker.query: the consecutive-failure counter
starts at zero. -/
def query (qs : List Stmt) (outs : List AttemptOutcome) (db : List Nat) : QState :=
  queryLoop qs outs db 0

/-- Warning count produced by a run of n consecutive failures starting
from counter value c (auxiliary closed form of the failure branch). -/
def warnSim (c : Nat) : Nat → Nat
  | 0 => 0
  | n + 1 => (if c > 59 then 1 else 0) + warnSim ((if c > 59 then 0 else c) + 1) n

/- ---------------------------------------------------------------- -/
/- Download orchestrator store rows: Downloader.py, class restore   -/
/- ---------------------------------------------------------------- -/

/-- Status literals the code writes into the requests table
(compared with case-insensitive SQL LIKE). -/
inductive ReqStatus
  | waiting
  | ready
  | finished
  | failed
  deriving DecidableEq, Repr

/-- Status literals written into the downloads table: the INSERT in
create_dl_entries writes the literal New, the reconciliation loop writes
downloading, downloaded and failed. -/
inductive DlStatus
  | fresh
  | downloading
  | downloaded
  | failed
  deriving DecidableEq, Repr

/-- Status of a download_attempts row: inserted with no status, later
updated by the reconciliation loop. -/
inductive AttStatus
  | unset
  | downloading
  | downloaded
  | failed
  deriving DecidableEq, Repr

/-- Row of the requests table (columns used by the embedded code). -/
structure ReqRow where
  id : Nat
  status : ReqStatus
  deriving DecidableEq, Repr

/-- Row of the downloads table: remote_filename is the name on the FTP
server, filename the local destination path, size the expected byte
count recorded when the row was created. -/
structure DLRow where
  id : Nat
  request_id : Nat
  remote_filename : String
  filename : String
  status : DlStatus
  size : Nat
  deriving DecidableEq, Repr

/-- Row of the download_attempts table. -/
structure AttRow where
  id : Nat
  download_id : Nat
  status : AttStatus
  deriving DecidableEq, Repr

/-- The slice of the durable store the restore logic reads and writes. -/
structure Store where
  downloads : List DLRow
  attempts : List AttRow
  deriving DecidableEq, Repr

/-- Number of download_attempts rows for one download, as computed by the
SELECT-then-len pattern used in restore.download and restore.is_finished. -/
def attemptCount (atts : List AttRow) (did : Nat) : Nat :=
  (atts.filter (fun a => a.download_id == did)).length

/-- Embedding of restore.is_finished (Downloader.py lines 329-353).
The four SELECTs become filters over the downloads table; the final pair
of UPDATE branches become the returned request row with status finished.
The boolean argument de is the test self.downloaders == dict() on line
338.  Note the comparison on line 348 blocks completion only when a
failed download has strictly more attempts than config.download.numretries. -/
def is_finished (numretries : Nat) (req : ReqRow) (st : Store) (de : Bool) :
    Bool × ReqRow :=
  let allDls := st.downloads.filter (fun d => d.request_id == req.id)
  let finDls := allDls.filter (fun d => d.status == DlStatus.downloaded)
  let fldDls := allDls.filter (fun d => d.status == DlStatus.failed)
  let dngDls := allDls.filter (fun d => d.status == DlStatus.downloading)
  if 0 < dngDls.length then (false, req)
  else if allDls.length = 0 ∧ de = true then (false, req)
  else if allDls.length = finDls.length then (true, { req with status := ReqStatus.finished })
  else if fldDls.any (fun f => decide (numretries < attemptCount st.attempts f.id)) then
    (false, req)
  else (true, { req with status := ReqStatus.finished })

/-- Completion rule as the specification states it: every download
downloaded, or no download downloading and every failed download has at
least numretries attempts (its retry ceiling exhausted). -/
def specCompletionRule (numretries : Nat) (req : ReqRow) (st : Store) : Bool :=
  let allDls := st.downloads.filter (fun d => d.request_id == req.id)
  allDls.all (fun d => d.status == DlStatus.downloaded) ||
    (allDls.all (fun d => !(d.status == DlStatus.downloading)) &&
      (allDls.filter (fun d => d.status == DlStatus.failed)).all
        (fun f => decide (numretries ≤ attemptCount st.attempts f.id)))

/-- Embedding of DownloadModule.recover (Downloader.py lines 52-56): the
working set is rebuilt from the SELECT over requests whose status is NOT
LIKE finished. -/
def recover (requests : List ReqRow) : List ReqRow :=
  requests.filter (fun r => !(r.status == ReqStatus.finished))

/- ---------------------------------------------------------------- -/
/- Worker reconciliation: restore.download lines 285-309 and        -/
/- restore.downloaded_size_match lines 311-319                      -/
/- ---------------------------------------------------------------- -/

/-- Worker status field values reported by a downloader thread: the empty
initial value, New after the destination file opened, then downloading,
downloaded or failed. -/
inductive WStatus
  | empty
  | fresh
  | downloading
  | downloaded
  | failed
  deriving DecidableEq, Repr

/-- What the orchestrator observes of one downloader thread when it walks
self.downloaders: the dict key (remote filename), the attempt row the
worker was created for, liveness, and the reported status. -/
structure WorkerObs where
  filename : String
  attempt_id : Nat
  alive : Bool
  status : WStatus
  deriving DecidableEq, Repr

/-- Association lookup used to model both the local filesystem (path to
on-disk size, none when the file does not exist) and the demand map of
job.py. -/
def assocLookup (m : List (String × Nat)) (f : String) : Option Nat :=
  (m.find? (fun p => p.fst == f)).map (fun p => p.snd)

/-- UPDATE download_attempts SET status = s WHERE id = aid. -/
def setAttemptStatus (atts : List AttRow) (aid : Nat) (s : AttStatus) : List AttRow :=
  atts.map (fun a => if a.id == aid then { a with status := s } else a)

/-- UPDATE downloads SET status = s WHERE remote_filename = fn (the code
keys this update on the filename alone, not on the request id). -/
def setDownloadStatusByRemote (dls : List DLRow) (fn : String) (s : DlStatus) : List DLRow :=
  dls.map (fun d => if d.remote_filename == fn then { d with status := s } else d)

/-- Embedding of restore.downloaded_size_match (lines 311-319): fetch the
attempt row, fetch its download row (indexing the first SELECT result
raises IndexError when absent), then compare the on-disk size of the local
path against the size column; a missing file counts as a mismatch. -/
def downloaded_size_match (st : Store) (fs : List (String × Nat)) (aid : Nat) :
    Except PyError Bool :=
  match st.attempts.find? (fun a => a.id == aid) with
  | none => Except.error PyError.indexError
  | some att =>
      match st.downloads.find? (fun d => d.id == att.download_id) with
      | none => Except.error PyError.indexError
      | some dl =>
          Except.ok (match assocLookup fs dl.filename with
            | some sz => sz == dl.size
            | none => false)

/-- The size comparison downloaded_size_match performs for a download row. -/
def sizeMatchB (fs : List (String × Nat)) (dl : DLRow) : Bool :=
  match assocLookup fs dl.filename with
  | some sz => sz == dl.size
  | none => false

/-- Embedding of one iteration of the reconciliation loop of
restore.download (lines 286-309) for the worker observation w: a live
worker has both rows set downloading; a dead worker reporting failed has
both rows set failed; a dead worker reporting downloaded has both rows set
downloaded only when downloaded_size_match accepts, failed otherwise; any
other dead status only removes the worker.  The loop performs UPDATEs
exclusively: it never inserts a download_attempts row. -/
def reconcileWorker (st : Store) (fs : List (String × Nat)) (w : WorkerObs) :
    Except PyError Store :=
  if w.alive then
    Except.ok { downloads := setDownloadStatusByRemote st.downloads w.filename DlStatus.downloading,
                attempts := setAttemptStatus st.attempts w.attempt_id AttStatus.downloading }
  else if w.status = WStatus.failed then
    Except.ok { downloads := setDownloadStatusByRemote st.downloads w.filename DlStatus.failed,
                attempts := setAttemptStatus st.attempts w.attempt_id AttStatus.failed }
  else if w.status = WStatus.downloaded then
    match downloaded_size_match st fs w.attempt_id with
    | Except.error e => Except.error e
    | Except.ok true =>
        Except.ok { downloads := setDownloadStatusByRemote st.downloads w.filename DlStatus.downloaded,
                    attempts := setAttemptStatus st.attempts w.attempt_id AttStatus.downloaded }
    | Except.ok false =>
        Except.ok { downloads := setDownloadStatusByRemote st.downloads w.filename DlStatus.failed,
                    attempts := setAttemptStatus st.attempts w.attempt_id AttStatus.failed }
  else Except.ok st

/- ---------------------------------------------------------------- -/
/- Worker creation: restore.download lines 268-283                  -/
/- ---------------------------------------------------------------- -/

/-- State threaded through the worker-creation loop: the attempts table,
the keys of self.downloaders, and the next fresh attempt row id. -/
structure SpawnState where
  attempts : List AttRow
  downloaders : List String
  nextId : Nat
  deriving DecidableEq, Repr

/-- Embedding of the worker-creation loop of restore.download (lines
270-283): for each downloads row not yet downloaded, count its attempt
rows; if no downloader is registered under its remote filename and
numretries is still strictly greater than the attempt count, insert a new
download_attempts row and register (start) a downloader for the file. -/
def spawnPass (numretries : Nat) (st : SpawnState) : List DLRow → SpawnState
  | [] => st
  | e :: rest =>
      let cnt := attemptCount st.attempts e.id
      let st' :=
        if st.downloaders.contains e.remote_filename then st
        else if numretries > cnt then
          { attempts := st.attempts ++ [{ id := st.nextId, download_id := e.id, status := AttStatus.unset }],
            downloaders := st.downloaders ++ [e.remote_filename],
            nextId := st.nextId + 1 }
        else st
      spawnPass numretries st' rest

/- ---------------------------------------------------------------- -/
/- Per-file worker: class downloader, method run (lines 387-436)    -/
/- ---------------------------------------------------------------- -/

/-- Outcome of one iteration of the connect loop in downloader.run: an
exception before the login call returned (connect, auth_tls, set_pasv or
login itself raising), an exception after login returned but before the
loop body completed (the cwd call raising), or a body that ran to the end
returning the login and cwd response strings. -/
inductive ConnAttempt
  | throwsEarly
  | throwsAfterLogin (login_resp : String)
  | completes (login_resp : String) (cwd_resp : String)
  deriving DecidableEq, Repr

/-- The worker fields the pre-transfer phase of run mutates, plus the
count of 1-second sleeps the connect loop performed. -/
structure PreState where
  status : String
  details : String
  sleeps : Nat
  deriving DecidableEq, Repr

/-- The response string the code demands from ftp.login (line 396). -/
def loginOKResp : String := "230 User logged in."

/-- The response string the code demands from ftp.cwd (line 402). -/
def cwdOKResp : String := "250 CWD command successful."

/-- Effect of the login-response check (lines 395-399). -/
def applyLogin (ps : PreState) (fn : String) (lr : String) : PreState :=
  if lr = loginOKResp then ps
  else { ps with status := "failed", details := "Login failed " ++ fn }

/-- Effect of the cwd-response check (lines 401-405). -/
def applyCwd (ps : PreState) (fn : String) (cr : String) : PreState :=
  if cr = cwdOKResp then ps
  else { ps with status := "failed", details := "Directory change failed " ++ fn }

/-- The while not_logged_in loop (lines 388-411): any exception sleeps one
second and retries; a body that completes applies both response checks and
leaves the loop.  Returns none when the observed attempt window is
exhausted without a completing iteration (the loop is still retrying). -/
def connectLoop (fn : String) (ps : PreState) : List ConnAttempt → Option PreState
  | [] => none
  | ConnAttempt.throwsEarly :: rest =>
      connectLoop fn { ps with sleeps := ps.sleeps + 1 } rest
  | ConnAttempt.throwsAfterLogin lr :: rest =>
      let ps1 := applyLogin ps fn lr
      connectLoop fn { ps1 with sleeps := ps1.sleeps + 1 } rest
  | ConnAttempt.completes lr cr :: rest =>
      let _ := rest
      some (applyCwd (applyLogin ps fn lr) fn cr)

/-- How the pre-transfer phase of run ends: an early return with status
failed (line 420-421), or falling through into the retrbinary transfer
block (lines 422-436). -/
inductive PreOutcome
  | aborted (ps : PreState)
  | transfers (ps : PreState)
  deriving DecidableEq, Repr

/-- Embedding of downloader.run up to the transfer block (lines 387-421):
run the connect loop, then open the destination file -- a successful open
sets status to the literal New (line 415), overwriting whatever the login
and cwd checks stored there, while a failed open sets status failed --
and finally return early exactly when status is the literal failed. -/
def runPreTransfer (fn : String) (atts : List ConnAttempt) (openOK : Bool) :
    Option PreOutcome :=
  match connectLoop fn { status := "", details := "", sleeps := 0 } atts with
  | none => none
  | some ps =>
      let ps2 := if openOK then { ps with status := "New" }
                 else { ps with status := "failed", details := "open failed" }
      if ps2.status = "failed" then some (PreOutcome.aborted ps2)
      else some (PreOutcome.transfers ps2)

/- ---------------------------------------------------------------- -/
/- Job lifecycle manager: job.py                                    -/
/- ---------------------------------------------------------------- -/

/-- ASCII lower-casing of one character, as str.lower performs on the
status literals involved here. -/
def lowerChar (c : Char) : Char :=
  if 65 ≤ c.toNat ∧ c.toNat ≤ 90 then Char.ofNat (c.toNat + 32) else c

/-- The str.lower call applied to every status comparison in job.py
(structural char-map formulation). -/
def pyLower (s : String) : String :=
  String.mk (s.data.map lowerChar)

/-- One line of a job log file (class LogEntry): the current status of a
job is the status field of its last entry. -/
structure LogEntry where
  date : String
  status : String
  host : String
  info : String
  deriving DecidableEq, Repr

/-- A PulsarSearchJob as rotate and the demand scan see it: its input
datafiles and its parsed log. -/
structure Job where
  datafiles : List String
  log : List LogEntry
  deriving DecidableEq, Repr

/-- PulsarSearchJob.get_status: the status of the last log entry; an empty
entry list makes the [-1] index raise. -/
def get_status (j : Job) : Option String :=
  j.log.getLast?.map LogEntry.status

/-- PulsarSearchJob.count_status: number of log entries whose status
matches (case-insensitively). -/
def count_status (j : Job) (s : String) : Nat :=
  (j.log.filter (fun e => pyLower e.status == pyLower s)).length

/-- The configuration names job.py reads from its config module. -/
structure JPConfig where
  delete_rawdata : Bool
  max_attempts : Nat
  deriving DecidableEq, Repr

/-- Observable actions one rotation pass performs. -/
inductive RotAction
  | submitA (j : Job)
  deriving DecidableEq, Repr

/-- Result of one rotation pass: submissions performed, actions in order,
and the exception that aborted the pass, when one did. -/
structure RotOutcome where
  submits : Nat
  actions : List RotAction
  err : Option PyError
  deriving DecidableEq, Repr

/-- How the elif chain of JobPool.rotate classifies a lowered status
string. -/
inductive StatusClass
  | idle
  | pfailed
  | psucc
  | newjob
  | upsucc
  | unrecognized
  deriving DecidableEq, Repr

/-- The elif dispatch of rotate (job.py lines 91-110) over the lowered
status string: idle covers the two do-nothing statuses. -/
def classifyStatus (s : String) : StatusClass :=
  if s = "submitted to queue" ∨ s = "processing in progress" then StatusClass.idle
  else if s = "processing failed" then StatusClass.pfailed
  else if s = "processing successful" then StatusClass.psucc
  else if s = "new job" then StatusClass.newjob
  else if s = "upload successful" then StatusClass.upsucc
  else StatusClass.unrecognized

/-- Embedding of the job loop of JobPool.rotate (job.py lines 89-111).
The processing failed branch evaluates count_status and then reads the
bare name max_attempts, which is unbound at module scope, raising
NameError; the processing successful branch calls upload_results, which
raises NotImplementedError; the upload successful branch calls delete_job,
whose guard body reads the unbound names is_in_demand and j, raising
NameError whenever config.delete_rawdata is set (and doing nothing
otherwise); an unrecognized status raises ValueError.  Any raise aborts
the pass. -/
def rotateJobs (cfg : JPConfig) : Bool → List Job → RotOutcome
  | _, [] => { submits := 0, actions := [], err := none }
  | cansubmit, j :: rest =>
      match get_status j with
      | none => { submits := 0, actions := [], err := some PyError.indexError }
      | some st =>
          match classifyStatus (pyLower st) with
          | StatusClass.idle => rotateJobs cfg cansubmit rest
          | StatusClass.pfailed =>
              { submits := 0, actions := [], err := some PyError.nameError }
          | StatusClass.psucc =>
              { submits := 0, actions := [], err := some PyError.notImplementedError }
          | StatusClass.newjob =>
              if cansubmit then
                let r := rotateJobs cfg false rest
                { submits := r.submits + 1, actions := RotAction.submitA j :: r.actions, err := r.err }
              else rotateJobs cfg cansubmit rest
          | StatusClass.upsucc =>
              if cfg.delete_rawdata then
                { submits := 0, actions := [], err := some PyError.nameError }
              else rotateJobs cfg cansubmit rest
          | StatusClass.unrecognized =>
              { submits := 0, actions := [], err := some PyError.valueError }

/-- JobPool.rotate (lines 86-111): cansubmit is true exactly when the
external queue reports zero queued jobs, then the job loop runs. -/
def rotate (cfg : JPConfig) (numqueued : Nat) (jobs : List Job) : RotOutcome :=
  rotateJobs cfg (numqueued == 0) jobs

/-- Whether JobPool.update_demand_file_list counts a job as still
demanding its datafiles (job.py lines 141-146).  For a processing failed
job the code evaluates job.count_status() with the required status
argument missing, raising TypeError. -/
def demandEntry (j : Job) : Except PyError Bool :=
  match get_status j with
  | none => Except.error PyError.indexError
  | some st =>
      let s := pyLower st
      if s = "submitted to queue" ∨ s = "processing in progress" ∨
          s = "processing successful" ∨ s = "new job" then Except.ok true
      else if s = "processing failed" then Except.error PyError.typeError
      else Except.ok false

/-- Increment the demand count of one datafile (lines 148-152): a file
seen for the first time is stored with count 1, so a count of zero is
never stored. -/
def bumpCount : List (String × Nat) → String → List (String × Nat)
  | [], f => [(f, 1)]
  | (g, n) :: rest, f =>
      if g == f then (g, n + 1) :: rest else (g, n) :: bumpCount rest f

/-- Loop body of JobPool.update_demand_file_list over the tracked jobs. -/
def updateDemandGo (acc : List (String × Nat)) : List Job → Except PyError (List (String × Nat))
  | [] => Except.ok acc
  | j :: rest =>
      match demandEntry j with
      | Except.error e => Except.error e
      | Except.ok true => updateDemandGo (j.datafiles.foldl bumpCount acc) rest
      | Except.ok false => updateDemandGo acc rest

/-- JobPool.update_demand_file_list (lines 131-152), starting from the
empty demand map. -/
def update_demand_file_list (jobs : List Job) : Except PyError (List (String × Nat)) :=
  updateDemandGo [] jobs

/-- Loop body of JobPool.is_in_demand (lines 180-185): the subscript
self.demand_file_list[datafile] raises KeyError when the file is absent
from the demand map, which is exactly the zero-demand case. -/
def isInDemandGo (m : List (String × Nat)) : List String → Except PyError Bool
  | [] => Except.ok false
  | f :: rest =>
      match assocLookup m f with
      | none => Except.error PyError.keyError
      | some n => if n > 0 then Except.ok true else isInDemandGo m rest

/-- JobPool.is_in_demand (lines 174-185): recompute the demand map by a
full scan, then walk the datafiles of the candidate job. -/
def is_in_demand (jobs : List Job) (j : Job) : Except PyError Bool :=
  match update_demand_file_list jobs with
  | Except.error e => Except.error e
  | Except.ok m => isInDemandGo m j.datafiles

/-- Outcome of JobPool.delete_job: the exception it raised (when it did)
and the datafiles it physically removed. -/
structure DeleteOutcome where
  err : Option PyError
  removed : List String
  deriving DecidableEq, Repr

/-- Embedding of JobPool.delete_job (job.py lines 44-56).  When
config.delete_rawdata is set, the guard on line 49 evaluates
is_in_demand(j): both names are looked up in the module global scope,
where neither is bound (is_in_demand exists only as a method of JobPool
and j is never defined), so NameError is raised before any demand
recomputation and before any os.remove; nothing is ever removed.  With
delete_rawdata unset the body is skipped entirely. -/
def delete_job (cfg : JPConfig) (j : Job) : DeleteOutcome :=
  let _ := j
  if cfg.delete_rawdata then { err := some PyError.nameError, removed := [] }
  else { err := none, removed := [] }

/- ---------------------------------------------------------------- -/
/- Job log parsing: class JobLog, method read (job.py lines 268-287) -/
/- ---------------------------------------------------------------- -/

/-- line.partition of the comment character: keep the text before the
first number-sign character. -/
def stripComment (l : String) : String :=
  String.mk (l.data.takeWhile (fun c => !(c == '#')))

/-- Whitespace as str.strip sees it on these log lines. -/
def isWS (c : Char) : Bool :=
  c == ' ' || c == '\t' || c == '\n' || c == '\r'

/-- Fuel-indexed splitter on the leftmost non-overlapping occurrences of
a separator (the semantics of splitting a line at each field separator);
the fuel is the input length, consumed at least one character per step. -/
def splitGo (sep : List Char) : Nat → List Char → List Char → List (List Char)
  | _, [], acc => [acc.reverse]
  | 0, cs, acc => [acc.reverse ++ cs]
  | fuel + 1, c :: rest, acc =>
      if sep.isPrefixOf (c :: rest) then
        acc.reverse :: splitGo sep fuel (List.drop (sep.length - 1) rest) []
      else splitGo sep fuel rest (c :: acc)

/-- Split a string at each leftmost occurrence of the separator. -/
def splitFields (sep : String) (s : String) : List String :=
  (splitGo sep.data s.data.length s.data []).map String.mk

/-- The field separator of the log line grammar. -/
def logSep : String := " -- "

/-- Whether a line matches the log grammar regex of JobLog (a date, a
status, a host and an info field joined by the spaced double-dash
separator): with every group matching greedily, a line matches exactly
when it splits into at least four such fields. -/
def matchesFmt (s : String) : Bool :=
  decide (4 ≤ (splitFields logSep s).length)

/-- The lines JobLog.read keeps: comments stripped, blank lines dropped
(a line is blank when str.strip leaves nothing, i.e. it is all
whitespace). -/
def keptLines (lines : List String) : List String :=
  (lines.map stripComment).filter (fun l => !(l.data.all isWS))

/-- Join fields back with the separator (for the greedily absorbed date
group of the regex). -/
def joinSep (sep : String) : List String → String
  | [] => ""
  | [x] => x
  | x :: xs => x ++ sep ++ joinSep sep xs

/-- JobLog.parse_logline under the greedy regex: the first group absorbs
every separator beyond the last three, the final three fields are the
status, host and info columns. -/
def parse_logline (s : String) : LogEntry :=
  let ps := splitFields logSep s
  { date := joinSep logSep (ps.take (ps.length - 3))
    status := ps.getD (ps.length - 3) ""
    host := ps.getD (ps.length - 2) ""
    info := ps.getD (ps.length - 1) "" }

/-- Embedding of JobLog.read (lines 268-287): strip comments, drop blank
lines, then check every remaining line against the grammar before any
entry is built; a single failing line raises ValueError and no entry list
is produced. -/
def readLog (lines : List String) : Except PyError (List LogEntry) :=
  if (keptLines lines).all matchesFmt then
    Except.ok ((keptLines lines).map parse_logline)
  else Except.error PyError.valueError

/- ---------------------------------------------------------------- -/
/- Helper lemmas                                                    -/
/- ---------------------------------------------------------------- -/

/-- A filter keeps the whole list exactly when every element passes. -/
theorem length_filter_eq_iff_all {α : Type} (p : α → Bool) (l : List α) :
    (l.filter p).length = l.length ↔ ∀ a ∈ l, p a = true := by
  constructor
  · intro h
    have hs : l.filter p = l := (List.filter_sublist l).eq_of_length h
    intro a ha
    exact List.of_mem_filter (hs ▸ ha)
  · intro h
    rw [List.filter_eq_self.mpr h]

/-- With cansubmit already false, a rotation pass submits nothing. -/
theorem rotateJobs_false_submits (cfg : JPConfig) (jobs : List Job) :
    (rotateJobs cfg false jobs).submits = 0 := by
  induction jobs with
  | nil => rfl
  | cons j rest ih =>
      cases h : get_status j with
      | none => simp [rotateJobs, h]
      | some st =>
          cases hc : classifyStatus (pyLower st)
          case idle => simpa [rotateJobs, h, hc] using ih
          case pfailed => simp [rotateJobs, h, hc]
          case psucc => simp [rotateJobs, h, hc]
          case newjob => simpa [rotateJobs, h, hc] using ih
          case upsucc =>
              cases hd : cfg.delete_rawdata
              case false => simpa [rotateJobs, h, hc, hd] using ih
              case true => simp [rotateJobs, h, hc, hd]
          case unrecognized => simp [rotateJobs, h, hc]

/-- Claim C2: within one invocation of JobPool.rotate, at most one submit
action is performed no matter how many jobs are eligible; after the first
submission cansubmit stays false for the rest of the pass. -/
theorem rotate_submit_cap (cfg : JPConfig) (numqueued : Nat) (jobs : List Job) :
    (rotate cfg numqueued jobs).submits ≤ 1 := by
  unfold rotate
  generalize (numqueued == 0) = cs
  induction jobs generalizing cs with
  | nil => simp [rotateJobs]
  | cons j rest ih =>
      cases h : get_status j with
      | none => simp [rotateJobs, h]
      | some st =>
          cases hc : classifyStatus (pyLower st)
          case idle => simpa [rotateJobs, h, hc] using ih cs
          case pfailed => simp [rotateJobs, h, hc]
          case psucc => simp [rotateJobs, h, hc]
          case newjob =>
              cases cs
              case false => simpa [rotateJobs, h, hc] using ih false
              case true => simp [rotateJobs, h, hc, rotateJobs_false_submits]
          case upsucc =>
              cases hd : cfg.delete_rawdata
              case false => simpa [rotateJobs, h, hc, hd] using ih cs
              case true => simp [rotateJobs, h, hc, hd]
          case unrecognized => simp [rotateJobs, h, hc]

/-- Claim C9: startup recovery reloads exactly the persisted Requests
whose status is not finished; every non-finished Request is reloaded and
no finished Request is. -/
theorem recover_exactly_unfinished (requests : List ReqRow) (r : ReqRow) :
    r ∈ recover requests ↔ r ∈ requests ∧ r.status ≠ ReqStatus.finished := by
  simp [recover, List.mem_filter]

/-- Claim C10: a ready Request with no Download rows in the store and no
live workers is not completed: is_finished returns false and leaves the
persisted request row untouched. -/
theorem is_finished_no_rows (nr : Nat) (req : ReqRow) (st : Store)
    (h : st.downloads.filter (fun d => d.request_id == req.id) = []) :
    is_finished nr req st true = (false, req) := by
  simp [is_finished, h]

/-- Witness for is_finished_no_rows at a concrete empty store. -/
theorem is_finished_no_rows_witness :
    (Store.mk [] []).downloads.filter (fun d => d.request_id == (1 : Nat)) = [] ∧
      is_finished 3 { id := 1, status := ReqStatus.ready } (Store.mk [] []) true
        = (false, { id := 1, status := ReqStatus.ready }) :=
  ⟨rfl, is_finished_no_rows 3 { id := 1, status := ReqStatus.ready } (Store.mk [] []) rfl⟩

/-- Request row of the completion counterexample: a ready restore. -/
def cxReq : ReqRow := { id := 1, status := ReqStatus.ready }

/-- Store of the completion counterexample: one failed download with a
single attempt, well below the retry ceiling of three, and nothing
downloading. -/
def cxStore : Store :=
  { downloads := [{ id := 1, request_id := 1, remote_filename := "f", filename := "t",
                    status := DlStatus.failed, size := 100 }],
    attempts := [{ id := 1, download_id := 1, status := AttStatus.failed }] }

/-- Claim C1 counterexample: with numretries = 3, a single failed download
holding one attempt (retries remaining) and nothing downloading,
restore.is_finished marks the request finished, while the completion rule
stated by the specification (all downloaded, or every failed download
retry-exhausted) does not hold; so completion is not evaluated exactly as
claimed. -/
theorem is_finished_claim_cx :
    (is_finished 3 cxReq cxStore true).fst = true ∧
      specCompletionRule 3 cxReq cxStore = false ∧
      (is_finished 3 cxReq cxStore true).snd.status = ReqStatus.finished := by
  decide

/-- Claim C6 (code bug evaluation): a worker whose FTP session completes
with a rejected login response and a successful directory change, and
whose destination file opens, proceeds to the transfer block with status
reset to New (the failed mark from the login check is overwritten by the
file open on line 415); and transient connect exceptions are retried with
one sleep each until an iteration completes. -/
theorem downloader_login_reject_still_transfers :
    runPreTransfer "f.fits" [ConnAttempt.completes "530 Login incorrect." cwdOKResp] true
        = some (PreOutcome.transfers { status := "New", details := "Login failed f.fits", sleeps := 0 }) ∧
      runPreTransfer "f.fits"
          (List.replicate 2 ConnAttempt.throwsEarly ++ [ConnAttempt.completes loginOKResp cwdOKResp]) true
        = some (PreOutcome.transfers { status := "New", details := "", sleeps := 2 }) := by
  constructor <;> rfl

/-- Sample tracked job whose datafile no counted job demands: its only log
status is upload successful, which the demand scan does not count. -/
def sampleJob : Job :=
  { datafiles := ["a.fits"],
    log := [{ date := "2020-01-01 00:00:00", status := "Upload successful",
              host := "hostA", info := "" }] }

/-- Claim C4 (code bug evaluation): with delete_rawdata set, delete_job
raises NameError before any demand recomputation and removes no file; with
it unset the body is skipped; and even the intended per-pool demand check
raises KeyError for a job whose datafile has demand count zero, because
the demand map never stores zero counts. -/
theorem delete_job_unbound_names :
    delete_job { delete_rawdata := true, max_attempts := 2 } sampleJob
        = { err := some PyError.nameError, removed := [] } ∧
      delete_job { delete_rawdata := false, max_attempts := 2 } sampleJob
        = { err := none, removed := [] } ∧
      is_in_demand [sampleJob] sampleJob = Except.error PyError.keyError := by
  exact ⟨rfl, rfl, rfl⟩

/-- An UPDATE by attempt id only rewrites the status of rows carrying
that id. -/
theorem setAttemptStatus_mem (atts : List AttRow) (aid : Nat) (s : AttStatus)
    (a : AttRow) (ha : a ∈ setAttemptStatus atts aid s) (hid : a.id = aid) :
    a.status = s := by
  rcases List.mem_map.mp ha with ⟨b, hb, hba⟩
  by_cases h : (b.id == aid) = true
  · rw [if_pos h] at hba
    rw [← hba]
  · rw [if_neg h] at hba
    subst hba
    exact absurd (beq_iff_eq.mpr hid) h

/-- An UPDATE keyed on remote_filename only rewrites the status of rows
carrying that filename. -/
theorem setDownloadStatus_mem (dls : List DLRow) (fn : String) (s : DlStatus)
    (d : DLRow) (hd : d ∈ setDownloadStatusByRemote dls fn s)
    (hfn : d.remote_filename = fn) : d.status = s := by
  rcases List.mem_map.mp hd with ⟨b, hb, hba⟩
  by_cases h : (b.remote_filename == fn) = true
  · rw [if_pos h] at hba
    rw [← hba]
  · rw [if_neg h] at hba
    subst hba
    exact absurd (beq_iff_eq.mpr hfn) h

/-- Claim C3: when a dead worker reports downloaded, reconciliation
persists its attempt row and the download rows under its filename as
downloaded exactly when the on-disk size of the local path equals the
recorded size (a missing file counts as a mismatch), and as failed
otherwise; and no reconciliation outcome ever changes the number of
download_attempts rows. -/
theorem reconcile_downloaded_gate :
    (∀ st fs (w : WorkerObs) att dl,
      w.alive = false → w.status = WStatus.downloaded →
      st.attempts.find? (fun a => a.id == w.attempt_id) = some att →
      st.downloads.find? (fun d => d.id == att.download_id) = some dl →
      ∃ st', reconcileWorker st fs w = Except.ok st' ∧
        (∀ a ∈ st'.attempts, a.id = w.attempt_id →
          a.status = (if sizeMatchB fs dl then AttStatus.downloaded else AttStatus.failed)) ∧
        (∀ d ∈ st'.downloads, d.remote_filename = w.filename →
          d.status = (if sizeMatchB fs dl then DlStatus.downloaded else DlStatus.failed)) ∧
        st'.attempts.length = st.attempts.length) ∧
    (∀ st fs (w : WorkerObs) st', reconcileWorker st fs w = Except.ok st' →
      st'.attempts.length = st.attempts.length) := by
  constructor
  · intro st fs w att dl halive hstat hatt hdl
    have hdsm : downloaded_size_match st fs w.attempt_id = Except.ok (sizeMatchB fs dl) := by
      simp only [downloaded_size_match, hatt, hdl, sizeMatchB]
    cases hm : sizeMatchB fs dl with
    | true =>
        have hrw : reconcileWorker st fs w = Except.ok
            { downloads := setDownloadStatusByRemote st.downloads w.filename DlStatus.downloaded,
              attempts := setAttemptStatus st.attempts w.attempt_id AttStatus.downloaded } := by
          simp only [reconcileWorker, halive, hstat, hdsm, hm]
          simp
        refine ⟨_, hrw, ?_, ?_, ?_⟩
        · intro a ha hid
          rw [if_pos rfl]
          exact setAttemptStatus_mem _ _ _ a ha hid
        · intro d hd hfn
          rw [if_pos rfl]
          exact setDownloadStatus_mem _ _ _ d hd hfn
        · simp [setAttemptStatus]
    | false =>
        have hrw : reconcileWorker st fs w = Except.ok
            { downloads := setDownloadStatusByRemote st.downloads w.filename DlStatus.failed,
              attempts := setAttemptStatus st.attempts w.attempt_id AttStatus.failed } := by
          simp only [reconcileWorker, halive, hstat, hdsm, hm]
          simp
        refine ⟨_, hrw, ?_, ?_, ?_⟩
        · intro a ha hid
          simp only [Bool.false_eq_true, if_false]
          exact setAttemptStatus_mem _ _ _ a ha hid
        · intro d hd hfn
          simp only [Bool.false_eq_true, if_false]
          exact setDownloadStatus_mem _ _ _ d hd hfn
        · simp [setAttemptStatus]
  · intro st fs w st' h
    unfold reconcileWorker at h
    split_ifs at h with h1 h2 h3
    · cases h
      simp [setAttemptStatus]
    · cases h
      simp [setAttemptStatus]
    · cases hm : downloaded_size_match st fs w.attempt_id with
      | error e =>
          rw [hm] at h
          cases h
      | ok b =>
          rw [hm] at h
          cases b with
          | true =>
              cases h
              simp [setAttemptStatus]
          | false =>
              cases h
              simp [setAttemptStatus]
    · cases h
      rfl

/-- Store for the reconciliation witness: one downloading download with
one attempt. -/
def rcSt : Store :=
  { downloads := [{ id := 1, request_id := 1, remote_filename := "f", filename := "t",
                    status := DlStatus.downloading, size := 100 }],
    attempts := [{ id := 1, download_id := 1, status := AttStatus.downloading }] }

/-- Worker observation for the reconciliation witness: dead, reporting
downloaded, owning attempt 1. -/
def rcW : WorkerObs := { filename := "f", attempt_id := 1, alive := false, status := WStatus.downloaded }

/-- Witness for reconcile_downloaded_gate at a concrete store whose local
file exists with the recorded size. -/
theorem reconcile_downloaded_gate_witness :
    ∃ st', reconcileWorker rcSt [("t", 100)] rcW = Except.ok st' ∧
      (∀ a ∈ st'.attempts, a.id = rcW.attempt_id →
        a.status = (if sizeMatchB [("t", 100)]
            { id := 1, request_id := 1, remote_filename := "f", filename := "t",
              status := DlStatus.downloading, size := 100 }
          then AttStatus.downloaded else AttStatus.failed)) ∧
      (∀ d ∈ st'.downloads, d.remote_filename = rcW.filename →
        d.status = (if sizeMatchB [("t", 100)]
            { id := 1, request_id := 1, remote_filename := "f", filename := "t",
              status := DlStatus.downloading, size := 100 }
          then DlStatus.downloaded else DlStatus.failed)) ∧
      st'.attempts.length = rcSt.attempts.length :=
  reconcile_downloaded_gate.1 rcSt [("t", 100)] rcW
    { id := 1, download_id := 1, status := AttStatus.downloading }
    { id := 1, request_id := 1, remote_filename := "f", filename := "t",
      status := DlStatus.downloading, size := 100 }
    rfl rfl (by decide) (by decide)

/-- Appending one attempt row bumps the count of its download by one and
leaves every other count unchanged. -/
theorem attemptCount_append (atts : List AttRow) (a : AttRow) (did : Nat) :
    attemptCount (atts ++ [a]) did
      = attemptCount atts did + (if a.download_id == did then 1 else 0) := by
  simp only [attemptCount, List.filter_append]
  cases h : a.download_id == did <;> simp [h]

/-- Claim C5: the worker-creation pass inserts a new attempt row and a new
downloader only while the attempt count is strictly below numretries, so
it preserves the bound count(Attempts) ≤ numretries for every download;
and a download already at the ceiling (with no live downloader) spawns
nothing: the pass leaves the state untouched. -/
theorem spawn_retry_bound :
    (∀ nr (st : SpawnState) entries, (∀ did, attemptCount st.attempts did ≤ nr) →
      ∀ did, attemptCount ((spawnPass nr st entries).attempts) did ≤ nr) ∧
    (∀ nr (st : SpawnState) (e : DLRow), st.downloaders.contains e.remote_filename = false →
      nr ≤ attemptCount st.attempts e.id → spawnPass nr st [e] = st) := by
  constructor
  · intro nr st entries
    induction entries generalizing st with
    | nil => intro h did; exact h did
    | cons e rest ih =>
        intro h did
        simp only [spawnPass]
        by_cases hcont : st.downloaders.contains e.remote_filename = true
        · rw [if_pos hcont]
          exact ih st h did
        · rw [if_neg hcont]
          by_cases hlt : attemptCount st.attempts e.id < nr
          · rw [if_pos hlt]
            refine ih _ ?_ did
            intro d
            rw [attemptCount_append]
            by_cases hde : (e.id == d) = true
            · rw [if_pos hde]
              have : attemptCount st.attempts d < nr := by
                rw [← beq_iff_eq.mp hde]
                exact hlt
              omega
            · rw [if_neg hde]
              simpa using h d
          · rw [if_neg hlt]
            exact ih st h did
  · intro nr st e hcont hge
    simp only [spawnPass]
    rw [if_neg (by simpa using hcont), if_neg (Nat.not_lt.mpr hge)]

/-- Spawn state for the retry-bound witness: one attempt under the
ceiling, no registered downloaders. -/
def spSt : SpawnState :=
  { attempts := [{ id := 1, download_id := 1, status := AttStatus.unset }],
    downloaders := [], nextId := 2 }

/-- Spawn state at the ceiling: three attempts for download 1 with
numretries three. -/
def spStFull : SpawnState :=
  { attempts := [{ id := 1, download_id := 1, status := AttStatus.unset },
                 { id := 2, download_id := 1, status := AttStatus.unset },
                 { id := 3, download_id := 1, status := AttStatus.unset }],
    downloaders := [], nextId := 4 }

/-- The downloads row driving the retry-bound witness. -/
def spE : DLRow :=
  { id := 1, request_id := 1, remote_filename := "f", filename := "t",
    status := DlStatus.failed, size := 9 }

/-- Witness for spawn_retry_bound: the bound is preserved through a pass
over one entry, and a pass over an at-ceiling entry changes nothing. -/
theorem spawn_retry_bound_witness :
    (∀ did, attemptCount ((spawnPass 3 spSt [spE]).attempts) did ≤ 3) ∧
      spawnPass 3 spStFull [spE] = spStFull := by
  constructor
  · exact spawn_retry_bound.1 3 spSt [spE]
      (fun did => le_trans (List.length_filter_le _ _) (by decide))
  · exact spawn_retry_bound.2 3 spStFull spE (by decide) (by decide)

/-- Claim C8: loading a job log raises ValueError as soon as any kept
(non-comment, non-blank) line fails the line grammar and returns no
partial entry list, while an all-valid log parses completely; and a
rotation pass hitting a job whose current status is unrecognized raises
ValueError, performing no action for that job and aborting the pass. -/
theorem fail_loud_log_and_rotate :
    (∀ lines, (∃ l ∈ keptLines lines, matchesFmt l = false) →
      readLog lines = Except.error PyError.valueError) ∧
    (∀ lines, (∀ l ∈ keptLines lines, matchesFmt l = true) →
      readLog lines = Except.ok ((keptLines lines).map parse_logline)) ∧
    (∀ cfg cs (j : Job) rest st, get_status j = some st →
      classifyStatus (pyLower st) = StatusClass.unrecognized →
      rotateJobs cfg cs (j :: rest)
        = { submits := 0, actions := [], err := some PyError.valueError }) := by
  refine ⟨?_, ?_, ?_⟩
  · intro lines h
    obtain ⟨l, hl, hbad⟩ := h
    have hno : ¬((keptLines lines).all matchesFmt = true) := by
      intro hall
      have h2 := List.all_eq_true.mp hall l hl
      rw [hbad] at h2
      cases h2
    unfold readLog
    rw [if_neg hno]
  · intro lines hall
    unfold readLog
    rw [if_pos (List.all_eq_true.mpr hall)]
  · intro cfg cs j rest st hst hc
    simp [rotateJobs, hst, hc]

/-- Log lines for the fail-loud witness: one valid line and one line with
no grammar separator at all. -/
def badLogLines : List String :=
  ["2020-01-01 -- New job -- hostA -- ok", "no separator line"]

/-- Job for the fail-loud witness, carrying an unrecognized status. -/
def jbad : Job :=
  { datafiles := ["a.fits"],
    log := [{ date := "d", status := "Garbage state", host := "h", info := "" }] }

/-- Witness for fail_loud_log_and_rotate: the malformed log fails whole,
and the rotation pass over the garbage-status job aborts actionless. -/
theorem fail_loud_log_and_rotate_witness :
    readLog badLogLines = Except.error PyError.valueError ∧
      rotateJobs { delete_rawdata := false, max_attempts := 2 } true [jbad]
        = { submits := 0, actions := [], err := some PyError.valueError } := by
  constructor
  · exact fail_loud_log_and_rotate.1 badLogLines
      ⟨"no separator line", by decide, by decide⟩
  · exact fail_loud_log_and_rotate.2.2 { delete_rawdata := false, max_attempts := 2 }
      true jbad [] "Garbage state" rfl (by decide)

/-- A failure streak too short to trip the counter prints no warning. -/
theorem warnSim_eq_zero (n c : Nat) (h : n + c ≤ 60) : warnSim c n = 0 := by
  induction n generalizing c with
  | zero => rfl
  | succ k ih =>
      have hc : ¬(c > 59) := by omega
      simp only [warnSim, if_neg hc]
      simpa using ih (c + 1) (by omega)

/-- A failure streak reaching past the counter threshold prints at least
one warning. -/
theorem warnSim_ge_one (n : Nat) : ∀ c, c ≤ 60 → 61 ≤ n + c → 1 ≤ warnSim c n := by
  induction n with
  | zero => intro c hc h; omega
  | succ k ih =>
      intro c hc h
      by_cases hgt : c > 59
      · simp only [warnSim, if_pos hgt]
        omega
      · simp only [warnSim, if_neg hgt]
        have hk := ih (c + 1) (by omega) (by omega)
        omega

/-- Whatever the attempt trace, the committed table is either untouched or
holds the full batch: no partial prefix ever survives. -/
theorem queryLoop_db_cases (qs : List Stmt) (outs : List AttemptOutcome)
    (db : List Nat) : ∀ c, (queryLoop qs outs db c).db = db ∨
      (queryLoop qs outs db c).db = (execStmts db qs).rows := by
  induction outs with
  | nil => intro c; left; rfl
  | cons o rest ih =>
      intro c
      cases o with
      | success => right; rfl
      | failAt k =>
          simp only [queryLoop]
          exact ih ((if c > 59 then 0 else c) + 1)

/-- A window of pure failures leaves the table untouched, returns nothing,
sleeps once per failure and warns per the counter automaton. -/
theorem queryLoop_no_success (qs : List Stmt) (outs : List AttemptOutcome)
    (db : List Nat) (h : ∀ o ∈ outs, AttemptOutcome.isSucc o = false) :
    ∀ c, queryLoop qs outs db c =
      { result := none, db := db, warns := warnSim c outs.length,
        sleeps := outs.length } := by
  induction outs with
  | nil => intro c; rfl
  | cons o rest ih =>
      intro c
      cases o with
      | success =>
          have := h AttemptOutcome.success (List.mem_cons_self _ _)
          simp [AttemptOutcome.isSucc] at this
      | failAt k =>
          have hr : ∀ o ∈ rest, AttemptOutcome.isSucc o = false :=
            fun o ho => h o (List.mem_cons_of_mem _ ho)
          simp only [queryLoop, ih hr, warnSim, List.length_cons]

/-- Running the loop on a failure prefix followed by a success commits the
whole batch, returns the computed result, sleeps once per leading failure
and warns per the counter automaton. -/
theorem queryLoop_with_success (qs : List Stmt) (pre : List AttemptOutcome)
    (post : List AttemptOutcome) (db : List Nat)
    (h : ∀ o ∈ pre, AttemptOutcome.isSucc o = false) :
    ∀ c, queryLoop qs (pre ++ AttemptOutcome.success :: post) db c =
      { result := some (expectedResult db qs), db := (execStmts db qs).rows,
        warns := warnSim c pre.length, sleeps := pre.length } := by
  induction pre with
  | nil => intro c; rfl
  | cons o pre' ih =>
      intro c
      cases o with
      | success =>
          have := h AttemptOutcome.success (List.mem_cons_self _ _)
          simp [AttemptOutcome.isSucc] at this
      | failAt k =>
          have hr : ∀ o ∈ pre', AttemptOutcome.isSucc o = false :=
            fun o ho => h o (List.mem_cons_of_mem _ ho)
          simp only [List.cons_append, queryLoop, List.append_eq, ih hr, warnSim, List.length_cons]

/-- Claim C7: every jobtracker.query call is one transaction -- the
committed table is always either untouched or the whole batch, a pure
failure window changes nothing and sleeps one second per retry, and once
an attempt succeeds the call returns the last insert id for inserts
(otherwise the fetched rows), having slept once per prior failure, with no
warning unless at least 60 consecutive failures preceded and at least one
warning once the streak passes 60. -/
theorem query_transaction_contract :
    (∀ qs outs db, (query qs outs db).db = db ∨
      (query qs outs db).db = (execStmts db qs).rows) ∧
    (∀ qs outs db, (∀ o ∈ outs, AttemptOutcome.isSucc o = false) →
      (query qs outs db).result = none ∧ (query qs outs db).db = db ∧
        (query qs outs db).sleeps = outs.length) ∧
    (∀ qs pre post db, (∀ o ∈ pre, AttemptOutcome.isSucc o = false) →
      (query qs (pre ++ AttemptOutcome.success :: post) db).result
          = some (expectedResult db qs) ∧
        (query qs (pre ++ AttemptOutcome.success :: post) db).db
          = (execStmts db qs).rows ∧
        (query qs (pre ++ AttemptOutcome.success :: post) db).sleeps = pre.length ∧
        (pre.length ≤ 60 →
          (query qs (pre ++ AttemptOutcome.success :: post) db).warns = 0) ∧
        (61 ≤ pre.length →
          1 ≤ (query qs (pre ++ AttemptOutcome.success :: post) db).warns)) := by
  refine ⟨?_, ?_, ?_⟩
  · intro qs outs db
    exact queryLoop_db_cases qs outs db 0
  · intro qs outs db h
    rw [query, queryLoop_no_success qs outs db h 0]
    exact ⟨rfl, rfl, rfl⟩
  · intro qs pre post db h
    rw [query, queryLoop_with_success qs pre post db h 0]
    refine ⟨rfl, rfl, rfl, ?_, ?_⟩
    · intro hle
      exact warnSim_eq_zero pre.length 0 (by omega)
    · intro hge
      exact warnSim_ge_one pre.length 0 (by omega) (by omega)

/-- Witness for query_transaction_contract: one lock failure then success
on a single INSERT commits the row, returns its rowid, sleeps once and
warns never. -/
theorem query_transaction_contract_witness :
    (query [Stmt.insertV 5] [AttemptOutcome.failAt 0, AttemptOutcome.success] []).result
        = some (QueryResult.rowid 1) ∧
      (query [Stmt.insertV 5] [AttemptOutcome.failAt 0, AttemptOutcome.success] []).db = [5] ∧
      (query [Stmt.insertV 5] [AttemptOutcome.failAt 0, AttemptOutcome.success] []).sleeps = 1 ∧
      (query [Stmt.insertV 5] [AttemptOutcome.failAt 0, AttemptOutcome.success] []).warns = 0 := by
  have h := query_transaction_contract.2.2 [Stmt.insertV 5] [AttemptOutcome.failAt 0]
      [] [] (by decide)
  exact ⟨h.1, h.2.1, h.2.2.1, h.2.2.2.1 (by decide)⟩

/-- is_finished only ever returns the untouched request with false, or the
finished-status request with true. -/
theorem is_finished_cases (nr : Nat) (req : ReqRow) (st : Store) (de : Bool) :
    is_finished nr req st de = (false, req) ∨
      is_finished nr req st de = (true, { req with status := ReqStatus.finished }) := by
  simp only [is_finished]
  split_ifs <;> simp

/-- Characterization of the completion test restore.is_finished actually
computes. -/
theorem is_finished_fst_iff (nr : Nat) (req : ReqRow) (st : Store) (de : Bool) :
    (is_finished nr req st de).fst = true ↔
      ((∀ d ∈ st.downloads.filter (fun d => d.request_id == req.id),
          d.status ≠ DlStatus.downloading) ∧
        (st.downloads.filter (fun d => d.request_id == req.id) ≠ [] ∨ de = false) ∧
        (∀ f ∈ st.downloads.filter (fun d => d.request_id == req.id),
          f.status = DlStatus.failed → attemptCount st.attempts f.id ≤ nr)) := by
  simp only [is_finished]
  split_ifs with h1 h2 h3 h4
  · -- a downloading row blocks
    constructor
    · intro hf
      exact absurd hf (by simp)
    · rintro ⟨hnd, -, -⟩
      obtain ⟨x, hx⟩ := List.length_pos_iff_exists_mem.mp h1
      have hx2 := List.mem_filter.mp hx
      exact ((hnd x hx2.1) (beq_iff_eq.mp hx2.2)).elim
  · -- no rows and no workers
    constructor
    · intro hf
      exact absurd hf (by simp)
    · rintro ⟨-, hne, -⟩
      rcases hne with hne | hde
      · exact (hne (List.length_eq_zero.mp h2.1)).elim
      · rw [h2.2] at hde
        cases hde
  · -- all rows downloaded
    have hdl : ∀ d ∈ st.downloads.filter (fun d => d.request_id == req.id),
        d.status = DlStatus.downloaded := by
      intro d hd
      exact beq_iff_eq.mp ((length_filter_eq_iff_all _ _).mp h3.symm d hd)
    refine ⟨fun _ => ⟨?_, ?_, ?_⟩, fun _ => rfl⟩
    · intro d hd hds
      rw [hdl d hd] at hds
      cases hds
    · rcases not_and_or.mp h2 with hlen | hde
      · left
        intro hnil
        exact hlen (by simp [hnil])
      · right
        exact (Bool.not_eq_true de) ▸ hde
    · intro f hf hfail
      rw [hdl f hf] at hfail
      cases hfail
  · -- a failed row beyond the ceiling blocks
    constructor
    · intro hf
      exact absurd hf (by simp)
    · rintro ⟨-, -, hb⟩
      obtain ⟨f, hfmem, hfdec⟩ := List.any_eq_true.mp h4
      have hff := List.mem_filter.mp hfmem
      have hcnt := of_decide_eq_true hfdec
      have hle := hb f hff.1 (beq_iff_eq.mp hff.2)
      omega
  · -- nothing downloading, nothing beyond the ceiling
    refine ⟨fun _ => ⟨?_, ?_, ?_⟩, fun _ => rfl⟩
    · intro d hd hds
      have hlen0 := Nat.le_zero.mp (Nat.not_lt.mp h1)
      have hmem : d ∈ (st.downloads.filter (fun d => d.request_id == req.id)).filter
          (fun d => d.status == DlStatus.downloading) :=
        List.mem_filter.mpr ⟨hd, beq_iff_eq.mpr hds⟩
      rw [List.length_eq_zero.mp hlen0] at hmem
      cases hmem
    · rcases not_and_or.mp h2 with hlen | hde
      · left
        intro hnil
        exact hlen (by simp [hnil])
      · right
        exact (Bool.not_eq_true de) ▸ hde
    · intro f hf hfail
      have hmem : f ∈ (st.downloads.filter (fun d => d.request_id == req.id)).filter
          (fun d => d.status == DlStatus.failed) :=
        List.mem_filter.mpr ⟨hf, beq_iff_eq.mpr hfail⟩
      by_contra hlt
      exact h4 (List.any_eq_true.mpr ⟨f, hmem, decide_eq_true (by omega)⟩)

/-- Claim C1 (amended): restore.is_finished marks the request finished
exactly when no download row of the request is downloading, the request
has at least one download row or a live worker, and no failed download
has strictly more attempts than the retry ceiling -- so a failed download
with retries remaining does not block completion, while retry-exhausted
failures and all-downloaded requests alike are written as finished, the
only status this routine persists. -/
theorem is_finished_characterization (nr : Nat) (req : ReqRow) (st : Store) (de : Bool) :
    ((is_finished nr req st de).fst = true ↔
      ((∀ d ∈ st.downloads.filter (fun d => d.request_id == req.id),
          d.status ≠ DlStatus.downloading) ∧
        (st.downloads.filter (fun d => d.request_id == req.id) ≠ [] ∨ de = false) ∧
        (∀ f ∈ st.downloads.filter (fun d => d.request_id == req.id),
          f.status = DlStatus.failed → attemptCount st.attempts f.id ≤ nr))) ∧
    (is_finished nr req st de).snd
      = (if (is_finished nr req st de).fst = true
          then { req with status := ReqStatus.finished } else req) := by
  refine ⟨is_finished_fst_iff nr req st de, ?_⟩
  rcases is_finished_cases nr req st de with h | h <;> rw [h] <;> simp

/-- Witness for is_finished_characterization: a request whose single
download is downloaded is marked finished by the code, matching the
characterization, applied at a concrete store. -/
theorem is_finished_characterization_witness :
    is_finished 3 { id := 1, status := ReqStatus.ready }
        { downloads := [{ id := 1, request_id := 1, remote_filename := "f", filename := "t",
                          status := DlStatus.downloaded, size := 100 }],
          attempts := [] } true
      = (true, { id := 1, status := ReqStatus.finished }) := by
  have h := is_finished_characterization 3 { id := 1, status := ReqStatus.ready }
      { downloads := [{ id := 1, request_id := 1, remote_filename := "f", filename := "t",
                        status := DlStatus.downloaded, size := 100 }],
        attempts := [] } true
  have hfst := h.1.mpr (by decide)
  have hsnd := h.2
  rw [hfst] at hsnd
  simp only [if_pos rfl] at hsnd
  exact Prod.ext hfst hsnd
